import Mathlib

/-!
# SecureChat relay server — shallow embedding

Shallow embedding of the in-memory room/message store of the SecureChat
relay. Two variants live in the repository:

* the main server (`src/server.js`), embedded below with the names of its
  route handlers (`createRoom`, `sendBroadcast`, `sendDirected`,
  `listBroadcast`, `listDirected`, `putRoomKey`, `getRoomKey`,
  `putPublicKey`, `getPublicKey`, `cleanupExpiredMessages`);
* a minimal variant (`src/unnamed/part_000`), embedded with a `v1` prefix
  (`v1Send`, `v1GetMessages`, `v1CleanupSweep`, `v1PutRoomKey`, ...).

Maps are embedded as functions `String → Option _`; JavaScript truthiness
of the values that actually flow through these handlers is modelled
explicitly: a missing or empty string is falsy, a missing numeric field or
the number `0` is falsy (`jsOrNat`), and a JSON object is always truthy
(so an *empty* recipient map passes a `!x` check).  `Date.now()` and the
random part of generated identifiers are passed in as parameters.
-/

/-- Error kinds surfaced by the HTTP layer (400 / 404 room / 409 / 404 key). -/
inductive ApiError where
  | invalidArgument
  | roomNotFound
  | conflict
  | notFound
  deriving DecidableEq, Repr

/-- Room metadata, `rooms` map value of `server.js`: `{ hostId, timestamp, e2eeEnabled }`. -/
structure Room where
  hostId : String
  timestamp : Nat
  e2eeEnabled : Bool
  deriving DecidableEq, Repr

/-- A legacy (broadcast) message record of `server.js`.
`expirationTime` is `Option Nat` because the sweep must tolerate records
without the field. -/
structure Msg where
  id : String
  roomId : String
  message : String
  senderId : String
  timestamp : Nat
  expirationTime : Option Nat
  deriving DecidableEq, Repr

/-- A directed (E2EE) message record of `server.js`. -/
structure E2EEMsg where
  id : String
  messageId : String
  senderId : String
  recipientId : String
  encryptedData : String
  timestamp : Nat
  expirationTime : Option Nat
  deriving DecidableEq, Repr

/-- `roomKeys` map value of `server.js`: `{ encryptedKey, timestamp }`. -/
structure RoomKeyEntry where
  encryptedKey : String
  timestamp : Nat
  deriving DecidableEq, Repr

/-- `userPublicKeys` inner map value of `server.js`: `{ publicKey, timestamp }`. -/
structure PubKeyEntry where
  publicKey : String
  timestamp : Nat
  deriving DecidableEq, Repr

/-- A receipt record of `server.js`: `{ messageId, recipientId, type, timestamp }`. -/
structure Receipt where
  messageId : String
  recipientId : String
  rtype : String
  timestamp : Nat
  deriving DecidableEq, Repr

/-- The whole in-memory store of `server.js` (its seven process-wide maps,
minus the purely observational `serverStats`). -/
structure ServerState where
  rooms : String → Option Room
  messages : String → Option (List Msg)
  roomKeys : String → Option RoomKeyEntry
  receipts : String → Option (List Receipt)
  userPublicKeys : String → Option (String → Option PubKeyEntry)
  roomUsers : String → Option (List String)
  e2eeMessages : String → Option (List E2EEMsg)

/-- The empty store at process start. -/
def emptyState : ServerState where
  rooms := fun _ => none
  messages := fun _ => none
  roomKeys := fun _ => none
  receipts := fun _ => none
  userPublicKeys := fun _ => none
  roomUsers := fun _ => none
  e2eeMessages := fun _ => none

/-- JavaScript `v || d` on an optional numeric field: a missing field and
the number `0` are falsy, everything else passes through. -/
def jsOrNat (v : Option Nat) (d : Nat) : Nat :=
  match v with
  | none => d
  | some n => if n = 0 then d else n

/-- `normalizeRoomId` from `server.js`:
`roomId ? roomId.toString().toUpperCase().trim() : ''`.
Uppercase then trim whitespace from both ends (ASCII model of the JS
string operations). -/
def normalizeRoomId (roomId : String) : String :=
  if roomId = "" then ""
  else String.mk
    ((((roomId.data.map Char.toUpper).dropWhile Char.isWhitespace).reverse.dropWhile
        Char.isWhitespace).reverse)

/-- `msg_${Date.now()}_${random}` from `generateMessageId` in `server.js`;
the random suffix is a parameter. -/
def generateMessageId (now : Nat) (rand : String) : String :=
  "msg_" ++ toString now ++ "_" ++ rand

/-- Keep-predicate of the `server.js` sweep and read filters:
`!msg.expirationTime || msg.expirationTime > now`.  A missing field and
the value `0` are falsy, hence kept. -/
def expKeep (now : Nat) (e : Option Nat) : Bool :=
  match e with
  | none => true
  | some t => t == 0 || now < t

/-- `cleanupExpiredMessages` from `server.js` lines 58–87: filter every
room's legacy and E2EE stream through `expKeep`. -/
def cleanupExpiredMessages (st : ServerState) (now : Nat) : ServerState :=
  { st with
    messages := fun r =>
      (st.messages r).map (List.filter fun m => expKeep now m.expirationTime)
    e2eeMessages := fun r =>
      (st.e2eeMessages r).map (List.filter fun m => expKeep now m.expirationTime) }

/-- `POST /create-room` from `server.js` lines 148–202: validate `roomId`
and `hostId`, normalize, overwrite room metadata, initialize every backing
collection that is still missing, add the host to room membership. -/
def createRoom (st : ServerState) (roomId hostId : String) (e2eeEnabled : Bool)
    (now : Nat) : Except ApiError String × ServerState :=
  if roomId = "" ∨ hostId = "" then (.error .invalidArgument, st)
  else
    let nid := normalizeRoomId roomId
    (.ok nid,
      { st with
        rooms := fun r => if r = nid then some ⟨hostId, now, e2eeEnabled⟩ else st.rooms r
        messages := fun r =>
          if r = nid then some ((st.messages r).getD []) else st.messages r
        e2eeMessages := fun r =>
          if r = nid then some ((st.e2eeMessages r).getD []) else st.e2eeMessages r
        receipts := fun r =>
          if r = nid then some ((st.receipts r).getD []) else st.receipts r
        userPublicKeys := fun r =>
          if r = nid then some ((st.userPublicKeys r).getD fun _ => none)
          else st.userPublicKeys r
        roomUsers := fun r =>
          if r = nid then some (((st.roomUsers r).getD []).insert hostId)
          else st.roomUsers r })

/-- `POST /users/:roomId/:userId/publickey` from `server.js` lines 271–315:
validate, require the room, overwrite the `(room,user)` public-key entry
(last write wins), add the user to room membership. -/
def putPublicKey (st : ServerState) (roomId userId publicKey : String)
    (now : Nat) : Except ApiError Nat × ServerState :=
  if roomId = "" ∨ userId = "" ∨ publicKey = "" then (.error .invalidArgument, st)
  else
    let nid := normalizeRoomId roomId
    if (st.rooms nid).isNone then (.error .roomNotFound, st)
    else
      (.ok now,
        { st with
          userPublicKeys := fun r =>
            if r = nid then
              some fun u =>
                if u = userId then some ⟨publicKey, now⟩
                else ((st.userPublicKeys nid).getD fun _ => none) u
            else st.userPublicKeys r
          roomUsers := fun r =>
            if r = nid then some (((st.roomUsers nid).getD []).insert userId)
            else st.roomUsers r })

/-- `GET /users/:roomId/:userId/publickey` from `server.js` lines 317–342. -/
def getPublicKey (st : ServerState) (roomId userId : String) :
    Except ApiError PubKeyEntry :=
  let nid := normalizeRoomId roomId
  if nid = "" ∨ userId = "" then .error .invalidArgument
  else
    match st.userPublicKeys nid with
    | none => .error .notFound
    | some keys =>
      match keys userId with
      | none => .error .notFound
      | some e => .ok e

/-- The record `POST /send-e2ee` pushes for one `(recipientId, encryptedData)`
entry of the recipient map. -/
def mkDirectedRecord (mid senderId : String) (ts finalExp : Nat)
    (p : String × String) : E2EEMsg :=
  { id := mid ++ "_" ++ p.1
    messageId := mid
    senderId := senderId
    recipientId := p.1
    encryptedData := p.2
    timestamp := ts
    expirationTime := some finalExp }

/-- `POST /send-e2ee` from `server.js` lines 383–439.  `encryptedMessages`
is `none` when the field is absent from the body (JS falsy); an *empty*
object is a present, truthy value and is modelled as `some []`.
`expirationTime || (timestamp + 24h)` is `jsOrNat`.  Returns
`(messageId, recipientCount, timestamp)`. -/
def sendDirected (st : ServerState) (roomId senderId : String)
    (encryptedMessages : Option (List (String × String)))
    (expirationTime : Option Nat) (now : Nat) (rand : String) :
    Except ApiError (String × Nat × Nat) × ServerState :=
  if roomId = "" ∨ senderId = "" ∨ encryptedMessages = none then
    (.error .invalidArgument, st)
  else
    let nid := normalizeRoomId roomId
    if (st.rooms nid).isNone then (.error .roomNotFound, st)
    else
      let mid := generateMessageId now rand
      let finalExp := jsOrNat expirationTime (now + 24 * 60 * 60 * 1000)
      let entries := encryptedMessages.getD []
      let newRecs := entries.map (mkDirectedRecord mid senderId now finalExp)
      (.ok (mid, entries.length, now),
        { st with
          e2eeMessages := fun r =>
            if r = nid then some (((st.e2eeMessages nid).getD []) ++ newRecs)
            else st.e2eeMessages r })

/-- Timestamp order on directed records, the comparator
`(a, b) => a.timestamp - b.timestamp`. -/
def e2eeTsLe (a b : E2EEMsg) : Prop := a.timestamp ≤ b.timestamp

instance : DecidableRel e2eeTsLe := fun a b => Nat.decLe a.timestamp b.timestamp

instance : IsTotal E2EEMsg e2eeTsLe := ⟨fun a b => Nat.le_total a.timestamp b.timestamp⟩

instance : IsTrans E2EEMsg e2eeTsLe := ⟨fun _ _ _ => Nat.le_trans⟩

/-- Timestamp order on broadcast records. -/
def msgTsLe (a b : Msg) : Prop := a.timestamp ≤ b.timestamp

instance : DecidableRel msgTsLe := fun a b => Nat.decLe a.timestamp b.timestamp

instance : IsTotal Msg msgTsLe := ⟨fun a b => Nat.le_total a.timestamp b.timestamp⟩

instance : IsTrans Msg msgTsLe := ⟨fun _ _ _ => Nat.le_trans⟩

/-- `GET /messages-e2ee/:roomId/:userId` from `server.js` lines 441–476:
validate, require the room, run the sweep, filter to the recipient's
unexpired records, sort ascending by timestamp (JS `sort` is stable;
insertion sort is the stable model). -/
def listDirected (st : ServerState) (roomId userId : String) (now : Nat) :
    Except ApiError (List E2EEMsg) × ServerState :=
  let nid := normalizeRoomId roomId
  if nid = "" ∨ userId = "" then (.error .invalidArgument, st)
  else if (st.rooms nid).isNone then (.error .roomNotFound, st)
  else
    let st' := cleanupExpiredMessages st now
    let l := (st'.e2eeMessages nid).getD []
    let userMessages :=
      (l.filter fun m => m.recipientId == userId && expKeep now m.expirationTime).insertionSort
        e2eeTsLe
    (.ok userMessages, st')

/-- `POST /send` from `server.js` lines 479–525: validate, require the
room, take the caller's timestamp when truthy else `Date.now()`, default
the expiration with `|| (timestamp + 24h)`, append.  Returns
`(messageId, timestamp)`. -/
def sendBroadcast (st : ServerState) (roomId message senderId : String)
    (timestamp expirationTime : Option Nat) (now : Nat) (rand : String) :
    Except ApiError (String × Nat) × ServerState :=
  if roomId = "" ∨ message = "" ∨ senderId = "" then (.error .invalidArgument, st)
  else
    let nid := normalizeRoomId roomId
    if (st.rooms nid).isNone then (.error .roomNotFound, st)
    else
      let mid := generateMessageId now rand
      let msgTs := jsOrNat timestamp now
      let exp := jsOrNat expirationTime (msgTs + 24 * 60 * 60 * 1000)
      (.ok (mid, msgTs),
        { st with
          messages := fun r =>
            if r = nid then
              some (((st.messages nid).getD []) ++
                [{ id := mid, roomId := nid, message := message, senderId := senderId,
                   timestamp := msgTs, expirationTime := some exp }])
            else st.messages r })

/-- `GET /messages/:roomId` from `server.js` lines 527–554: validate the
normalized id only — no room-existence check — run the sweep, filter out
expired records, sort ascending by timestamp. -/
def listBroadcast (st : ServerState) (roomId : String) (now : Nat) :
    Except ApiError (List Msg) × ServerState :=
  let nid := normalizeRoomId roomId
  if nid = "" then (.error .invalidArgument, st)
  else
    let st' := cleanupExpiredMessages st now
    let l := (st'.messages nid).getD []
    let validMessages :=
      (l.filter fun m => expKeep now m.expirationTime).insertionSort msgTsLe
    (.ok validMessages, st')

/-- `POST /rooms/:roomId/key` from `server.js` lines 557–588: validate,
require the room, then unconditionally `roomKeys.set(...)` — there is no
conflict check in this handler. -/
def putRoomKey (st : ServerState) (roomId encryptedKey : String) (now : Nat) :
    Except ApiError Nat × ServerState :=
  let nid := normalizeRoomId roomId
  if nid = "" ∨ encryptedKey = "" then (.error .invalidArgument, st)
  else if (st.rooms nid).isNone then (.error .roomNotFound, st)
  else
    (.ok now,
      { st with
        roomKeys := fun r => if r = nid then some ⟨encryptedKey, now⟩ else st.roomKeys r })

/-- `GET /rooms/:roomId/key` from `server.js` lines 590–615. -/
def getRoomKey (st : ServerState) (roomId : String) : Except ApiError RoomKeyEntry :=
  let nid := normalizeRoomId roomId
  if nid = "" then .error .invalidArgument
  else
    match st.roomKeys nid with
    | none => .error .notFound
    | some k => .ok k

/-- Room record of the minimal variant (`src/unnamed/part_000`):
`{ hostId, members, createdAt }`. -/
structure V1Room where
  hostId : String
  members : List String
  createdAt : Nat
  deriving DecidableEq, Repr

/-- Message record of the minimal variant.  The numeric id
(`Date.now() + Math.random()`) is a parameter; `expirationTime` is stored
exactly as the caller sent it, possibly absent. -/
structure V1Msg where
  id : Nat
  roomId : String
  message : String
  senderId : String
  timestamp : Nat
  expirationTime : Option Nat
  deriving DecidableEq, Repr

/-- The in-memory store of the minimal variant: `rooms`, `messages`,
`pubkeys`, `roomkeys` — note: no normalization anywhere in this file. -/
structure V1State where
  rooms : String → Option V1Room
  messages : String → Option (List V1Msg)
  pubkeys : String → Option (String → Option String)
  roomkeys : String → Option String

/-- The empty minimal-variant store. -/
def v1EmptyState : V1State where
  rooms := fun _ => none
  messages := fun _ => none
  pubkeys := fun _ => none
  roomkeys := fun _ => none

/-- `POST /create-room` of the minimal variant (part_000 lines 28–35):
stores under the *raw* `roomId` and resets `messages[roomId]` to `[]`. -/
def v1CreateRoom (st : V1State) (roomId hostId : String) (now : Nat) :
    Except ApiError String × V1State :=
  if roomId = "" ∨ hostId = "" then (.error .invalidArgument, st)
  else
    (.ok roomId,
      { st with
        rooms := fun r => if r = roomId then some ⟨hostId, [hostId], now⟩ else st.rooms r
        messages := fun r => if r = roomId then some [] else st.messages r })

/-- `GET /room/:roomId` of the minimal variant: `!!rooms[roomId]`, raw id. -/
def v1RoomExists (st : V1State) (roomId : String) : Bool :=
  (st.rooms roomId).isSome

/-- `POST /send` of the minimal variant (part_000 lines 43–58): no room
check at all — `if (!messages[roomId]) messages[roomId] = []` auto-creates
the stream and the push always succeeds. -/
def v1Send (st : V1State) (roomId message senderId : String)
    (expirationTime : Option Nat) (now : Nat) (idv : Nat) :
    Except ApiError Nat × V1State :=
  if roomId = "" ∨ message = "" ∨ senderId = "" then (.error .invalidArgument, st)
  else
    (.ok idv,
      { st with
        messages := fun r =>
          if r = roomId then
            some (((st.messages roomId).getD []) ++
              [{ id := idv, roomId := roomId, message := message, senderId := senderId,
                 timestamp := now, expirationTime := expirationTime }])
          else st.messages r })

/-- Keep-predicate of the minimal variant's filters:
`m.expirationTime > now` — a record *without* the field (or with `0`)
compares falsy and is removed. -/
def v1ExpKeep (now : Nat) (e : Option Nat) : Bool :=
  match e with
  | none => false
  | some t => now < t

/-- `GET /messages/:roomId` of the minimal variant (part_000 lines 60–66):
absent stream answers `[]`; otherwise filter in place and return, no sort. -/
def v1GetMessages (st : V1State) (roomId : String) (now : Nat) :
    List V1Msg × V1State :=
  match st.messages roomId with
  | none => ([], st)
  | some l =>
    let l' := l.filter fun m => v1ExpKeep now m.expirationTime
    (l', { st with messages := fun r => if r = roomId then some l' else st.messages r })

/-- The `setInterval` sweep of the minimal variant (part_000 lines 115–120):
every stream is filtered through `m.expirationTime > now`. -/
def v1CleanupSweep (st : V1State) (now : Nat) : V1State :=
  { st with
    messages := fun r =>
      (st.messages r).map (List.filter fun m => v1ExpKeep now m.expirationTime) }

/-- `POST /api/roomkeys/:roomId` of the minimal variant (part_000 lines
98–106): reject a missing key with 400, an already-present key with 409,
otherwise store — the one-shot write. -/
def v1PutRoomKey (st : V1State) (roomId encryptedKey : String) :
    Except ApiError Unit × V1State :=
  if encryptedKey = "" then (.error .invalidArgument, st)
  else if (st.roomkeys roomId).isSome then (.error .conflict, st)
  else
    (.ok (),
      { st with
        roomkeys := fun r => if r = roomId then some encryptedKey else st.roomkeys r })

/-- `GET /api/roomkeys/:roomId` of the minimal variant (part_000 lines
109–112): `key ? json({encryptedKey: key}) : 404` — an empty stored string
would also answer 404 (falsy). -/
def v1GetRoomKey (st : V1State) (roomId : String) : Except ApiError String :=
  match st.roomkeys roomId with
  | none => .error .notFound
  | some k => if k = "" then .error .notFound else .ok k

/-! ## Concrete fixtures used by witnesses and counterexamples -/

/-- A room record used by the concrete fixtures. -/
def roomR : Room := ⟨"host", 0, true⟩

/-- A store holding exactly the room `"R"`. -/
def stWithRoom : ServerState :=
  { emptyState with rooms := fun r => if r = "R" then some roomR else none }

/-- A store holding the room `"R"` together with an already-written room
key `"k1"`. -/
def stWithRoomAndKey : ServerState :=
  { stWithRoom with roomKeys := fun r => if r = "R" then some ⟨"k1", 0⟩ else none }

/-- A minimal-variant message without an `expirationTime` field. -/
def v1MsgNoExp : V1Msg := ⟨1, "R", "hi", "u", 0, none⟩

/-- A minimal-variant store whose room `"R"` stream holds exactly
`v1MsgNoExp`. -/
def v1StWithMsg : V1State :=
  { v1EmptyState with messages := fun r => if r = "R" then some [v1MsgNoExp] else none }

/-! ## C1 — room-key write semantics -/

/-- C1 counterexample: on the main server (`POST /rooms/:roomId/key`,
the operation the claim names), a second room-key write on a room that
already has the key `"k1"` does **not** return `Conflict`: it succeeds and
the stored key changes to the second writer's payload `"k2"`. -/
theorem putRoomKey_overwrite_counterexample :
    stWithRoomAndKey.roomKeys (normalizeRoomId "R") = some ⟨"k1", 0⟩ ∧
    (putRoomKey stWithRoomAndKey "R" "k2" 5).1 = .ok 5 ∧
    getRoomKey (putRoomKey stWithRoomAndKey "R" "k2" 5).2 "R" = .ok ⟨"k2", 5⟩ ∧
    ("k2" : String) ≠ "k1" :=
  ⟨rfl, rfl, rfl, by decide⟩

/-- C1 (amended): the one-shot first-writer-wins semantics hold for the
minimal variant's `POST /api/roomkeys/:roomId` (`v1PutRoomKey`): starting
with no key stored, the first of two writes with different payloads
succeeds, the second returns `Conflict` leaving the store untouched, and a
subsequent `v1GetRoomKey` returns the first writer's payload.  The main
server's `putRoomKey` instead overwrites unconditionally. -/
theorem v1PutRoomKey_first_writer_wins (st : V1State) (roomId k1 k2 : String)
    (h0 : st.roomkeys roomId = none) (h1 : k1 ≠ "") (h2 : k2 ≠ "") :
    (v1PutRoomKey st roomId k1).1 = .ok () ∧
    v1PutRoomKey (v1PutRoomKey st roomId k1).2 roomId k2 =
      (.error .conflict, (v1PutRoomKey st roomId k1).2) ∧
    v1GetRoomKey (v1PutRoomKey st roomId k1).2 roomId = .ok k1 := by
  simp [v1PutRoomKey, v1GetRoomKey, h0, h1, h2]

/-- C1 witness: the first-writer-wins theorem applied to the empty
minimal-variant store with payloads `"k1"`, `"k2"`. -/
theorem v1PutRoomKey_first_writer_wins_witness :
    (v1PutRoomKey v1EmptyState "R" "k1").1 = .ok () ∧
    v1PutRoomKey (v1PutRoomKey v1EmptyState "R" "k1").2 "R" "k2" =
      (.error .conflict, (v1PutRoomKey v1EmptyState "R" "k1").2) ∧
    v1GetRoomKey (v1PutRoomKey v1EmptyState "R" "k1").2 "R" = .ok "k1" :=
  v1PutRoomKey_first_writer_wins v1EmptyState "R" "k1" "k2" rfl (by decide) (by decide)

/-! ## C2 — expiration-time policy -/

/-- C2 counterexample: `POST /send` with an explicit `expirationTime` of
`5` — far in the past at send time `1000000` — stores `5` verbatim, not
`timestamp + 24h` as the claim requires for a non-future explicit value. -/
theorem sendBroadcast_past_explicit_expiry_counterexample :
    ((sendBroadcast stWithRoom "R" "hi" "u" none (some 5) 1000000 "x").2.messages "R").getD []
      = [⟨generateMessageId 1000000 "x", "R", "hi", "u", 1000000, some 5⟩] ∧
    (5 : Nat) < 1000000 ∧
    (some 5 : Option Nat) ≠ some (1000000 + 24 * 60 * 60 * 1000) := by
  refine ⟨by decide, by decide, by decide⟩

/-- C2 (amended): for both sends, the stored `expirationTime` equals the
caller's explicit value whenever one is supplied and nonzero — regardless
of whether it lies in the future — and equals the message timestamp plus
24 hours when the field is absent (or the JS-falsy `0`). -/
theorem send_expiration_policy (st : ServerState) (room : Room)
    (roomId message senderId : String) (entries : List (String × String))
    (now e : Nat) (rand : String)
    (h1 : roomId ≠ "") (h2 : message ≠ "") (h3 : senderId ≠ "") (he : e ≠ 0)
    (hr : st.rooms (normalizeRoomId roomId) = some room) :
    ((sendBroadcast st roomId message senderId none (some e) now rand).2.messages
        (normalizeRoomId roomId) =
      some (((st.messages (normalizeRoomId roomId)).getD []) ++
        [⟨generateMessageId now rand, normalizeRoomId roomId, message, senderId, now,
          some e⟩])) ∧
    ((sendBroadcast st roomId message senderId none none now rand).2.messages
        (normalizeRoomId roomId) =
      some (((st.messages (normalizeRoomId roomId)).getD []) ++
        [⟨generateMessageId now rand, normalizeRoomId roomId, message, senderId, now,
          some (now + 24 * 60 * 60 * 1000)⟩])) ∧
    ((sendDirected st roomId senderId (some entries) (some e) now rand).2.e2eeMessages
        (normalizeRoomId roomId) =
      some (((st.e2eeMessages (normalizeRoomId roomId)).getD []) ++
        entries.map (mkDirectedRecord (generateMessageId now rand) senderId now e))) ∧
    ((sendDirected st roomId senderId (some entries) none now rand).2.e2eeMessages
        (normalizeRoomId roomId) =
      some (((st.e2eeMessages (normalizeRoomId roomId)).getD []) ++
        entries.map (mkDirectedRecord (generateMessageId now rand) senderId now
          (now + 24 * 60 * 60 * 1000)))) := by
  refine ⟨?_, ?_, ?_, ?_⟩ <;>
    simp [sendBroadcast, sendDirected, jsOrNat, h1, h2, h3, he, hr]

/-- C2 witness: the expiration policy applied in the store holding room
`"R"`, with explicit expiry `5`, at send time `1000000`. -/
theorem send_expiration_policy_witness :
    ((sendBroadcast stWithRoom "R" "hi" "u" none (some 5) 1000000 "x").2.messages
        (normalizeRoomId "R") =
      some (((stWithRoom.messages (normalizeRoomId "R")).getD []) ++
        [⟨generateMessageId 1000000 "x", normalizeRoomId "R", "hi", "u", 1000000,
          some 5⟩])) ∧
    ((sendBroadcast stWithRoom "R" "hi" "u" none none 1000000 "x").2.messages
        (normalizeRoomId "R") =
      some (((stWithRoom.messages (normalizeRoomId "R")).getD []) ++
        [⟨generateMessageId 1000000 "x", normalizeRoomId "R", "hi", "u", 1000000,
          some (1000000 + 24 * 60 * 60 * 1000)⟩])) ∧
    ((sendDirected stWithRoom "R" "u" (some [("a", "blob")]) (some 5) 1000000 "x").2.e2eeMessages
        (normalizeRoomId "R") =
      some (((stWithRoom.e2eeMessages (normalizeRoomId "R")).getD []) ++
        [("a", "blob")].map (mkDirectedRecord (generateMessageId 1000000 "x") "u" 1000000 5))) ∧
    ((sendDirected stWithRoom "R" "u" (some [("a", "blob")]) none 1000000 "x").2.e2eeMessages
        (normalizeRoomId "R") =
      some (((stWithRoom.e2eeMessages (normalizeRoomId "R")).getD []) ++
        [("a", "blob")].map (mkDirectedRecord (generateMessageId 1000000 "x") "u" 1000000
          (1000000 + 24 * 60 * 60 * 1000)))) :=
  send_expiration_policy stWithRoom roomR "R" "hi" "u" [("a", "blob")] 1000000 5 "x"
    (by decide) (by decide) (by decide) (by decide) (by decide)

/-! ## C3 — directed send with an empty recipient map -/

/-- C3 counterexample: `POST /send-e2ee` on the existing room `"R"` with a
*present but empty* `encryptedMessages` object passes the `!x` truthiness
check, so the call succeeds with `recipientCount = 0` instead of failing
with `InvalidArgument`. -/
theorem sendDirected_empty_recipients_counterexample :
    (sendDirected stWithRoom "R" "u" (some []) none 5 "x").1 =
      .ok (generateMessageId 5 "x", 0, 5) ∧
    (sendDirected stWithRoom "R" "u" (some []) none 5 "x").2.e2eeMessages "R" = some [] :=
  ⟨rfl, rfl⟩

/-- C3 (amended): a directed send on an existing room with an empty
recipient map succeeds with `recipientCount = 0` and stores no message
records; only an *absent* `encryptedMessages` field is rejected with
`InvalidArgument`. -/
theorem sendDirected_empty_recipients_policy (st : ServerState) (room : Room)
    (roomId senderId : String) (exp : Option Nat) (now : Nat) (rand : String)
    (h1 : roomId ≠ "") (h2 : senderId ≠ "")
    (hr : st.rooms (normalizeRoomId roomId) = some room) :
    (sendDirected st roomId senderId (some []) exp now rand).1 =
      .ok (generateMessageId now rand, 0, now) ∧
    ((sendDirected st roomId senderId (some []) exp now rand).2.e2eeMessages
        (normalizeRoomId roomId)).getD [] =
      (st.e2eeMessages (normalizeRoomId roomId)).getD [] ∧
    (sendDirected st roomId senderId (some []) exp now rand).2.messages = st.messages ∧
    sendDirected st roomId senderId none exp now rand = (.error .invalidArgument, st) := by
  refine ⟨?_, ?_, ?_, ?_⟩ <;> simp [sendDirected, h1, h2, hr]

/-- C3 witness: the empty-recipient-map policy applied to the store
holding room `"R"`. -/
theorem sendDirected_empty_recipients_policy_witness :
    (sendDirected stWithRoom "R" "u" (some []) none 5 "x").1 =
      .ok (generateMessageId 5 "x", 0, 5) ∧
    ((sendDirected stWithRoom "R" "u" (some []) none 5 "x").2.e2eeMessages
        (normalizeRoomId "R")).getD [] =
      (stWithRoom.e2eeMessages (normalizeRoomId "R")).getD [] ∧
    (sendDirected stWithRoom "R" "u" (some []) none 5 "x").2.messages = stWithRoom.messages ∧
    sendDirected stWithRoom "R" "u" none none 5 "x" = (.error .invalidArgument, stWithRoom) :=
  sendDirected_empty_recipients_policy stWithRoom roomR "R" "u" none 5 "x"
    (by decide) (by decide) (by decide)

/-! ## C4 — directed fan-out and per-recipient delivery -/

/-- C4 (confirmed): a directed send with recipient map `entries` into an
existing room appends exactly `entries.length` records, all sharing the
one generated `messageId` and the one send `timestamp`; each record is
returned by the directed read of its own recipient, and every record any
directed read returns carries that reader's `recipientId` — so no record
is ever returned to a different recipient. -/
theorem sendDirected_fanout_per_recipient (st : ServerState) (room : Room)
    (roomId senderId : String) (entries : List (String × String))
    (now : Nat) (rand : String)
    (h1 : roomId ≠ "") (h2 : senderId ≠ "") (hn : normalizeRoomId roomId ≠ "")
    (hr : st.rooms (normalizeRoomId roomId) = some room) :
    ((sendDirected st roomId senderId (some entries) none now rand).2.e2eeMessages
        (normalizeRoomId roomId) =
      some (((st.e2eeMessages (normalizeRoomId roomId)).getD []) ++
        entries.map (mkDirectedRecord (generateMessageId now rand) senderId now
          (now + 24 * 60 * 60 * 1000)))) ∧
    (entries.map (mkDirectedRecord (generateMessageId now rand) senderId now
        (now + 24 * 60 * 60 * 1000))).length = entries.length ∧
    (∀ m ∈ entries.map (mkDirectedRecord (generateMessageId now rand) senderId now
        (now + 24 * 60 * 60 * 1000)),
      m.messageId = generateMessageId now rand ∧ m.timestamp = now) ∧
    (∀ p ∈ entries, p.1 ≠ "" →
      ∃ l, (listDirected (sendDirected st roomId senderId (some entries) none now rand).2
          roomId p.1 now).1 = .ok l ∧
        mkDirectedRecord (generateMessageId now rand) senderId now
          (now + 24 * 60 * 60 * 1000) p ∈ l) ∧
    (∀ u l st2,
      listDirected (sendDirected st roomId senderId (some entries) none now rand).2
          roomId u now = (.ok l, st2) →
      ∀ m ∈ l, m.recipientId = u) := by
  have hsend :
      (sendDirected st roomId senderId (some entries) none now rand).2 =
        { st with
          e2eeMessages := fun r =>
            if r = normalizeRoomId roomId then
              some (((st.e2eeMessages (normalizeRoomId roomId)).getD []) ++
                entries.map (mkDirectedRecord (generateMessageId now rand) senderId now
                  (now + 24 * 60 * 60 * 1000)))
            else st.e2eeMessages r } := by
    simp [sendDirected, h1, h2, hr, jsOrNat]
  refine ⟨?_, ?_, ?_, ?_, ?_⟩
  · rw [hsend]; simp
  · simp
  · intro m hm
    simp only [List.mem_map] at hm
    obtain ⟨p, _, rfl⟩ := hm
    exact ⟨rfl, rfl⟩
  · intro p hp hp1
    rw [hsend]
    simp [listDirected, cleanupExpiredMessages, hn, hp1, hr]
    have hk : expKeep now (some (now + 86400000)) = true := by
      simp [expKeep]
    exact Or.inr ⟨⟨p.1, p.2, by simpa using hp, rfl⟩, rfl, hk⟩
  · intro u l st2 heq m hm
    rw [hsend] at heq
    by_cases hu : u = ""
    · simp [listDirected, hn, hu] at heq
    · simp only [listDirected, hn, hu, hr] at heq
      simp [hn, hu, hr] at heq
      obtain ⟨hl, _⟩ := heq
      rw [← hl] at hm
      simp only [List.mem_insertionSort, List.mem_filter] at hm
      have := hm.2
      simp at this
      exact this.1

/-- C4 witness: the fan-out theorem applied to room `"R"` with the two
recipients `"a"` and `"b"`. -/
theorem sendDirected_fanout_per_recipient_witness :
    ((sendDirected stWithRoom "R" "u" (some [("a", "blob1"), ("b", "blob2")]) none 5 "x").2.e2eeMessages
        (normalizeRoomId "R") =
      some (((stWithRoom.e2eeMessages (normalizeRoomId "R")).getD []) ++
        [("a", "blob1"), ("b", "blob2")].map (mkDirectedRecord (generateMessageId 5 "x") "u" 5
          (5 + 24 * 60 * 60 * 1000)))) ∧
    ([("a", "blob1"), ("b", "blob2")].map (mkDirectedRecord (generateMessageId 5 "x") "u" 5
        (5 + 24 * 60 * 60 * 1000))).length = [("a", "blob1"), ("b", "blob2")].length ∧
    (∀ m ∈ [("a", "blob1"), ("b", "blob2")].map (mkDirectedRecord (generateMessageId 5 "x") "u" 5
        (5 + 24 * 60 * 60 * 1000)),
      m.messageId = generateMessageId 5 "x" ∧ m.timestamp = 5) ∧
    (∀ p ∈ [("a", "blob1"), ("b", "blob2")], p.1 ≠ "" →
      ∃ l, (listDirected
          (sendDirected stWithRoom "R" "u" (some [("a", "blob1"), ("b", "blob2")]) none 5 "x").2
          "R" p.1 5).1 = .ok l ∧
        mkDirectedRecord (generateMessageId 5 "x") "u" 5 (5 + 24 * 60 * 60 * 1000) p ∈ l) ∧
    (∀ u l st2,
      listDirected
          (sendDirected stWithRoom "R" "u" (some [("a", "blob1"), ("b", "blob2")]) none 5 "x").2
          "R" u 5 = (.ok l, st2) →
      ∀ m ∈ l, m.recipientId = u) :=
  sendDirected_fanout_per_recipient stWithRoom roomR "R" "u"
    [("a", "blob1"), ("b", "blob2")] 5 "x" (by decide) (by decide) (by decide) rfl

/-! ## C5 — expiry sweeps -/

/-- C5 counterexample: the minimal variant's periodic sweep filters with
`m.expirationTime > now`, so a message *without* an `expirationTime`
field is removed — the claim says such a message is never removed by any
sweep. -/
theorem v1Sweep_drops_no_expiration_counterexample :
    v1MsgNoExp ∈ (v1StWithMsg.messages "R").getD [] ∧
    v1MsgNoExp.expirationTime = none ∧
    (v1CleanupSweep v1StWithMsg 5).messages "R" = some [] := by
  refine ⟨by decide, rfl, by decide⟩

/-- Option-valued streams: mapping a filter over the option and then
defaulting to `[]` is filtering the defaulted list. -/
theorem getD_map_filter {α : Type} (o : Option (List α)) (f : α → Bool) :
    ((o.map (List.filter f)).getD []) = (o.getD []).filter f := by
  cases o <;> rfl

/-- The main server's keep-predicate, spelled out. -/
theorem expKeep_eq_true_iff (now : Nat) (e : Option Nat) :
    expKeep now e = true ↔
      (e = none ∨ e = some 0 ∨ ∃ t, e = some t ∧ now < t) := by
  cases e with
  | none => simp [expKeep]
  | some t =>
    by_cases h : t = 0
    · simp [expKeep, h]
    · simp [expKeep, h]

/-- The minimal variant's keep-predicate, spelled out. -/
theorem v1ExpKeep_eq_true_iff (now : Nat) (e : Option Nat) :
    v1ExpKeep now e = true ↔ ∃ t, e = some t ∧ now < t := by
  cases e <;> simp [v1ExpKeep]

/-- C5 (amended): the main server's sweep (`cleanupExpiredMessages`)
keeps, in every room's broadcast and directed stream, exactly the
messages whose `expirationTime` is absent, the JS-falsy `0`, or strictly
in the future — i.e. it removes exactly those with a *nonzero* expiration
at or before the current instant, and never removes a message with no
`expirationTime` field.  The minimal variant's periodic sweep
(`v1CleanupSweep`) instead keeps exactly the messages with an expiration
strictly in the future, removing those with no `expirationTime` field. -/
theorem cleanup_sweep_characterization (st : ServerState) (stv : V1State)
    (now : Nat) (r : String) :
    (∀ m : Msg, m ∈ ((cleanupExpiredMessages st now).messages r).getD [] ↔
      m ∈ (st.messages r).getD [] ∧
        (m.expirationTime = none ∨ m.expirationTime = some 0 ∨
          ∃ t, m.expirationTime = some t ∧ now < t)) ∧
    (∀ m : E2EEMsg, m ∈ ((cleanupExpiredMessages st now).e2eeMessages r).getD [] ↔
      m ∈ (st.e2eeMessages r).getD [] ∧
        (m.expirationTime = none ∨ m.expirationTime = some 0 ∨
          ∃ t, m.expirationTime = some t ∧ now < t)) ∧
    (∀ m : V1Msg, m ∈ ((v1CleanupSweep stv now).messages r).getD [] ↔
      m ∈ (stv.messages r).getD [] ∧
        ∃ t, m.expirationTime = some t ∧ now < t) := by
  refine ⟨?_, ?_, ?_⟩ <;> intro m <;>
    simp [cleanupExpiredMessages, v1CleanupSweep, getD_map_filter, List.mem_filter,
      expKeep_eq_true_iff, v1ExpKeep_eq_true_iff]

/-! ## C6 — sends into a never-created room -/

/-- C6 counterexample: the minimal variant's `POST /send` performs no
room-existence check: sending into the never-created room `"ROOM1"`
succeeds and appends to the (auto-created) message store rather than
failing with `RoomNotFound`. -/
theorem v1Send_absent_room_succeeds_counterexample :
    v1EmptyState.rooms "ROOM1" = none ∧
    (v1Send v1EmptyState "ROOM1" "hi" "u" none 5 7).1 = .ok 7 ∧
    (v1Send v1EmptyState "ROOM1" "hi" "u" none 5 7).2.messages "ROOM1" =
      some [⟨7, "ROOM1", "hi", "u", 5, none⟩] :=
  ⟨rfl, rfl, by decide⟩

/-- C6 (amended): on the main server, both sends into a never-created
room fail with `RoomNotFound` and return the store completely unchanged;
the minimal variant's `/send`, by contrast, succeeds against any room and
auto-creates the message stream. -/
theorem send_absent_room_policy (st : ServerState) (stv : V1State)
    (roomId message senderId : String) (ems : List (String × String))
    (ts exp : Option Nat) (now idv : Nat) (rand : String)
    (h1 : roomId ≠ "") (h2 : message ≠ "") (h3 : senderId ≠ "")
    (habs : st.rooms (normalizeRoomId roomId) = none) :
    sendBroadcast st roomId message senderId ts exp now rand =
      (.error .roomNotFound, st) ∧
    sendDirected st roomId senderId (some ems) exp now rand =
      (.error .roomNotFound, st) ∧
    (v1Send stv roomId message senderId exp now idv).1 = .ok idv ∧
    (v1Send stv roomId message senderId exp now idv).2.messages roomId =
      some (((stv.messages roomId).getD []) ++
        [⟨idv, roomId, message, senderId, now, exp⟩]) := by
  refine ⟨?_, ?_, ?_, ?_⟩ <;>
    simp [sendBroadcast, sendDirected, v1Send, h1, h2, h3, habs]

/-- C6 witness: the absent-room policy applied to the empty stores and
room `"ROOM1"`. -/
theorem send_absent_room_policy_witness :
    sendBroadcast emptyState "ROOM1" "hi" "u" none none 5 "x" =
      (.error .roomNotFound, emptyState) ∧
    sendDirected emptyState "ROOM1" "u" (some [("a", "blob")]) none 5 "x" =
      (.error .roomNotFound, emptyState) ∧
    (v1Send v1EmptyState "ROOM1" "hi" "u" none 5 7).1 = .ok 7 ∧
    (v1Send v1EmptyState "ROOM1" "hi" "u" none 5 7).2.messages "ROOM1" =
      some (((v1EmptyState.messages "ROOM1").getD []) ++
        [⟨7, "ROOM1", "hi", "u", 5, none⟩]) :=
  send_absent_room_policy emptyState v1EmptyState "ROOM1" "hi" "u" [("a", "blob")]
    none none 5 7 "x" (by decide) (by decide) (by decide) rfl

/-! ## C7 — read ordering -/

/-- C7 (confirmed): whenever a broadcast read or a directed read
succeeds, the returned sequence is sorted in ascending order of
`timestamp`. -/
theorem listReads_sorted_by_timestamp (st : ServerState) (roomId userId : String)
    (now : Nat) :
    (∀ l st2, listDirected st roomId userId now = (.ok l, st2) →
      l.Sorted e2eeTsLe) ∧
    (∀ l st2, listBroadcast st roomId now = (.ok l, st2) →
      l.Sorted msgTsLe) := by
  constructor
  · intro l st2 heq
    by_cases hv : normalizeRoomId roomId = "" ∨ userId = ""
    · simp [listDirected, hv] at heq
    · by_cases hroom : (st.rooms (normalizeRoomId roomId)).isNone
      · simp [listDirected, hv, hroom] at heq
      · simp [listDirected, hv, hroom] at heq
        obtain ⟨hl, _⟩ := heq
        rw [← hl]
        exact List.sorted_insertionSort e2eeTsLe _
  · intro l st2 heq
    by_cases hv : normalizeRoomId roomId = ""
    · simp [listBroadcast, hv] at heq
    · simp [listBroadcast, hv] at heq
      obtain ⟨hl, _⟩ := heq
      rw [← hl]
      exact List.sorted_insertionSort msgTsLe _

/-- C7 witness: both reads applied to the store holding room `"R"`
return sorted (here empty) sequences. -/
theorem listReads_sorted_by_timestamp_witness :
    ([] : List E2EEMsg).Sorted e2eeTsLe ∧ ([] : List Msg).Sorted msgTsLe :=
  ⟨(listReads_sorted_by_timestamp stWithRoom "R" "u" 5).1 []
      (cleanupExpiredMessages stWithRoom 5) rfl,
    (listReads_sorted_by_timestamp stWithRoom "R" "u" 5).2 []
      (cleanupExpiredMessages stWithRoom 5) rfl⟩

/-! ## C8 — room-identifier normalization -/

/-- C8 counterexample: the minimal variant performs no normalization:
`normalizeRoomId` sends `"abc"` and `"ABC "` to the same normal form, yet
after `v1CreateRoom` with `"abc"` the room resolves under `"abc"` and
does **not** resolve under `"ABC "` — the two identifier variants denote
different rooms there. -/
theorem v1_no_normalization_counterexample :
    normalizeRoomId "abc" = normalizeRoomId "ABC " ∧
    v1RoomExists (v1CreateRoom v1EmptyState "abc" "h" 0).2 "abc" = true ∧
    v1RoomExists (v1CreateRoom v1EmptyState "abc" "h" 0).2 "ABC " = false := by
  refine ⟨by decide, by decide, by decide⟩

/-- C8 (amended): on the main server every embedded room-scoped operation
resolves the room through `normalizeRoomId` (uppercase, trimmed), so two
nonempty identifier strings with equal normal forms are fully
interchangeable: every operation returns the same result and the same
store on either; the minimal variant performs no such normalization. -/
theorem normalization_consistent (s1 s2 : String)
    (h : normalizeRoomId s1 = normalizeRoomId s2) (h1 : s1 ≠ "") (h2 : s2 ≠ "")
    (st : ServerState) (hostId userId publicKey message senderId encryptedKey rand : String)
    (e2ee : Bool) (ems : Option (List (String × String))) (ts exp : Option Nat) (now : Nat) :
    createRoom st s1 hostId e2ee now = createRoom st s2 hostId e2ee now ∧
    putPublicKey st s1 userId publicKey now = putPublicKey st s2 userId publicKey now ∧
    getPublicKey st s1 userId = getPublicKey st s2 userId ∧
    sendDirected st s1 senderId ems exp now rand = sendDirected st s2 senderId ems exp now rand ∧
    listDirected st s1 userId now = listDirected st s2 userId now ∧
    sendBroadcast st s1 message senderId ts exp now rand =
      sendBroadcast st s2 message senderId ts exp now rand ∧
    listBroadcast st s1 now = listBroadcast st s2 now ∧
    putRoomKey st s1 encryptedKey now = putRoomKey st s2 encryptedKey now ∧
    getRoomKey st s1 = getRoomKey st s2 := by
  refine ⟨?_, ?_, ?_, ?_, ?_, ?_, ?_, ?_, ?_⟩ <;>
    simp only [createRoom, putPublicKey, getPublicKey, sendDirected, listDirected,
      sendBroadcast, listBroadcast, putRoomKey, getRoomKey, h, h1, h2]

/-- C8 witness: `"abc"` and `"ABC "` are interchangeable across all
main-server operations on the empty store. -/
theorem normalization_consistent_witness :
    createRoom emptyState "abc" "h" true 5 = createRoom emptyState "ABC " "h" true 5 ∧
    putPublicKey emptyState "abc" "u" "pk" 5 = putPublicKey emptyState "ABC " "u" "pk" 5 ∧
    getPublicKey emptyState "abc" "u" = getPublicKey emptyState "ABC " "u" ∧
    sendDirected emptyState "abc" "u" (some [("a", "b")]) none 5 "x" =
      sendDirected emptyState "ABC " "u" (some [("a", "b")]) none 5 "x" ∧
    listDirected emptyState "abc" "u" 5 = listDirected emptyState "ABC " "u" 5 ∧
    sendBroadcast emptyState "abc" "hi" "u" none none 5 "x" =
      sendBroadcast emptyState "ABC " "hi" "u" none none 5 "x" ∧
    listBroadcast emptyState "abc" 5 = listBroadcast emptyState "ABC " 5 ∧
    putRoomKey emptyState "abc" "ek" 5 = putRoomKey emptyState "ABC " "ek" 5 ∧
    getRoomKey emptyState "abc" = getRoomKey emptyState "ABC " :=
  normalization_consistent "abc" "ABC " (by decide) (by decide) (by decide)
    emptyState "h" "u" "pk" "hi" "u" "ek" "x" true (some [("a", "b")]) none none 5

/-! ## C9 — public-key registration -/

/-- C9 (confirmed): on an existing room, sequential public-key writes W1
then W2 for the same `(room, user)` both succeed without error, a
subsequent `getPublicKey` returns W2's payload, and the user has been
added to the room's membership. -/
theorem putPublicKey_last_writer_wins (st : ServerState) (room : Room)
    (roomId userId k1 k2 : String) (t1 t2 : Nat)
    (h1 : roomId ≠ "") (h2 : userId ≠ "") (hk1 : k1 ≠ "") (hk2 : k2 ≠ "")
    (hn : normalizeRoomId roomId ≠ "")
    (hr : st.rooms (normalizeRoomId roomId) = some room) :
    (putPublicKey st roomId userId k1 t1).1 = .ok t1 ∧
    (putPublicKey (putPublicKey st roomId userId k1 t1).2 roomId userId k2 t2).1 = .ok t2 ∧
    getPublicKey
        (putPublicKey (putPublicKey st roomId userId k1 t1).2 roomId userId k2 t2).2
        roomId userId = .ok ⟨k2, t2⟩ ∧
    userId ∈
      (((putPublicKey (putPublicKey st roomId userId k1 t1).2 roomId userId k2 t2).2).roomUsers
        (normalizeRoomId roomId)).getD [] := by
  refine ⟨?_, ?_, ?_, ?_⟩ <;>
    simp [putPublicKey, getPublicKey, h1, h2, hk1, hk2, hn, hr, List.mem_insert_self]

/-- C9 witness: two sequential writes for `("R", "u")` in the store
holding room `"R"`. -/
theorem putPublicKey_last_writer_wins_witness :
    (putPublicKey stWithRoom "R" "u" "pk1" 1).1 = .ok 1 ∧
    (putPublicKey (putPublicKey stWithRoom "R" "u" "pk1" 1).2 "R" "u" "pk2" 2).1 = .ok 2 ∧
    getPublicKey (putPublicKey (putPublicKey stWithRoom "R" "u" "pk1" 1).2 "R" "u" "pk2" 2).2
        "R" "u" = .ok ⟨"pk2", 2⟩ ∧
    "u" ∈
      (((putPublicKey (putPublicKey stWithRoom "R" "u" "pk1" 1).2 "R" "u" "pk2" 2).2).roomUsers
        (normalizeRoomId "R")).getD [] :=
  putPublicKey_last_writer_wins stWithRoom roomR "R" "u" "pk1" "pk2" 1 2
    (by decide) (by decide) (by decide) (by decide) (by decide) rfl

/-! ## C10 — broadcast read requires no room -/

/-- C10 (confirmed): a broadcast read never fails with `RoomNotFound`:
for any identifier with a nonempty normal form it succeeds — returning
`[]` when no messages were ever stored there, even if the room was never
created — whereas a directed read on an absent room fails with
`RoomNotFound`. -/
theorem listBroadcast_never_roomNotFound (st : ServerState) (roomId userId : String)
    (now : Nat) (hn : normalizeRoomId roomId ≠ "") :
    (∃ l st2, listBroadcast st roomId now = (.ok l, st2)) ∧
    (st.messages (normalizeRoomId roomId) = none →
      (listBroadcast st roomId now).1 = .ok []) ∧
    (st.rooms (normalizeRoomId roomId) = none → userId ≠ "" →
      listDirected st roomId userId now = (.error .roomNotFound, st)) := by
  refine ⟨?_, ?_, ?_⟩
  · refine ⟨((((cleanupExpiredMessages st now).messages (normalizeRoomId roomId)).getD []).filter
        (fun m => expKeep now m.expirationTime)).insertionSort msgTsLe,
      cleanupExpiredMessages st now, ?_⟩
    simp only [listBroadcast]
    rw [if_neg hn]
  · intro habs
    simp [listBroadcast, cleanupExpiredMessages, hn, habs]
  · intro habs hu
    simp [listDirected, hn, hu, habs]

/-- C10 witness: on the empty store, reading `"ROOM1"`'s broadcast stream
succeeds with `[]` while the directed read fails with `RoomNotFound`. -/
theorem listBroadcast_never_roomNotFound_witness :
    (∃ l st2, listBroadcast emptyState "ROOM1" 5 = (.ok l, st2)) ∧
    (emptyState.messages (normalizeRoomId "ROOM1") = none →
      (listBroadcast emptyState "ROOM1" 5).1 = .ok []) ∧
    (emptyState.rooms (normalizeRoomId "ROOM1") = none → ("u" : String) ≠ "" →
      listDirected emptyState "ROOM1" "u" 5 = (.error .roomNotFound, emptyState)) :=
  listBroadcast_never_roomNotFound emptyState "ROOM1" "u" 5 (by decide)

